import Mathlib

/-!
Verification of the `bugout-python` job-queue client (`bugout/jobs.py` and the
transport / journal client layers it uses: `bugout/calls.py`, `bugout/journal.py`,
`bugout/app.py`, `bugout/data.py`).

The development has two layers:

* a client layer, translated directly from the Python source: the strings,
  query components, request parameters, authorization headers and exception
  translation that the client computes locally;
* a protocol layer, in which the remote journal store (which lives in a
  different repository, the Spire server) is modelled from the spec, and the
  queue operations are the composition of the client's decisions with that
  modelled store.

Python machine-level details that the claims do not touch (timeouts as floats,
the float `score` field of search results) are omitted; everything else follows
the source line by line.
-/

/-! ### Python string built-ins used by the source

`str.replace(" ", "T")` with a one-character pattern replaces every space
character; `url.split("/")[-1]` is the suffix after the last slash (the whole
string when there is no slash). Both are implemented over the character list
so that they evaluate inside the kernel. -/

/-- Python `s.replace(" ", "T")`: every space character becomes `'T'`. -/
def pyReplaceSpaceT (s : String) : String :=
  String.mk (s.data.map (fun c => if c = ' ' then 'T' else c))

/-- Helper for `lastPathSegment`: accumulate the current segment, resetting at each slash. -/
def lastSegAux (acc : List Char) : List Char → List Char
  | [] => acc
  | c :: rest => if c = '/' then lastSegAux [] rest else lastSegAux (acc ++ [c]) rest

/-- Python `s.split("/")[-1]`: the final path segment of `s`. -/
def lastPathSegment (s : String) : String := String.mk (lastSegAux [] s.data)

/-! ### `bugout/data.py` -/

/-- `data.py` `AuthType` enum: member names `bearer` / `web3`, values `"Bearer"` / `"Web3"`. -/
inductive AuthType
  | bearer
  | web3
deriving DecidableEq, Repr

/-- `AuthType.value`: the string literal placed before the token in the header. -/
def AuthType.value : AuthType → String
  | .bearer => "Bearer"
  | .web3 => "Web3"

/-- `AuthType.name` in Python: the enum member's name. -/
def AuthType.nameStr : AuthType → String
  | .bearer => "bearer"
  | .web3 => "web3"

/-- Python `AuthType[s]`: lookup of an enum member by name, `KeyError` when absent
(modelled as `none`). -/
def authTypeFromName : String → Option AuthType
  | "bearer" => some .bearer
  | "web3" => some .web3
  | _ => none

/-- `journal.py` `SearchOrder` enum. -/
inductive SearchOrder
  | ASCENDING
  | DESCENDING
deriving DecidableEq, Repr

/-- `SearchOrder.value`: the wire string of the order parameter. -/
def SearchOrder.value : SearchOrder → String
  | .ASCENDING => "asc"
  | .DESCENDING => "desc"

/-- `data.py` `BugoutSearchResult` (the float `score` field is omitted:
floating point is outside the embedding and no claim mentions it). -/
structure BugoutSearchResult where
  entry_url : String
  content_url : String
  title : String
  content : Option String
  tags : List String
  created_at : String
  updated_at : String
deriving DecidableEq, Repr

/-- `data.py` `BugoutSearchResultWithEntryID`: a search result plus the bare entry id. -/
structure BugoutSearchResultWithEntryID extends BugoutSearchResult where
  id : String
deriving DecidableEq, Repr

/-- `jobs.py` line 176-181: augment a raw search hit with the trailing path
segment of its `entry_url` as the `id` field. -/
def withEntryID (r : BugoutSearchResult) : BugoutSearchResultWithEntryID :=
  { toBugoutSearchResult := r, id := lastPathSegment r.entry_url }

/-! ### `bugout/exceptions.py` and the Python exceptions the client can raise

`PyErr` covers both the library's own exception classes
(`BugoutResponseException`, `BugoutUnexpectedResponse`) and the raw Python /
`requests` exceptions that escape untranslated. -/

inductive PyErr
  /-- `exceptions.py` `BugoutResponseException(message, status_code, detail)`. -/
  | bugoutResponseException (message : String) (status_code : Nat) (detail : String)
  /-- `exceptions.py` `BugoutUnexpectedResponse(message)`. -/
  | bugoutUnexpectedResponse (message : String)
  /-- A JSON decode error from `response.json()`, escaping untranslated. -/
  | jsonDecodeError (text : String)
  /-- A `KeyError` (missing dict key or missing enum member), escaping untranslated. -/
  | keyError (key : String)
  /-- `requests.exceptions.HTTPError` from `raise_for_status()`, escaping untranslated. -/
  | httpError (status_code : Nat)
  /-- A connection-level `requests` exception, escaping untranslated. -/
  | requestsConnectionError (err : String)
  /-- Python `UnboundLocalError`: a local variable referenced before assignment. -/
  | unboundLocalError (localVar : String)
  /-- Any other local Python error, escaping untranslated. -/
  | pythonError (err : String)
deriving DecidableEq, Repr

/-- Discriminator: is this error the library's `BugoutResponseException`? -/
def PyErr.isBugoutResponseException : PyErr → Bool
  | .bugoutResponseException _ _ _ => true
  | _ => false

/-- Discriminator: is this error the library's `BugoutUnexpectedResponse`? -/
def PyErr.isBugoutUnexpectedResponse : PyErr → Bool
  | .bugoutUnexpectedResponse _ => true
  | _ => false

/-! ### `bugout/calls.py` -/

/-- An HTTP response as observed by the client: status code, the
`Content-Type` header (`none` when absent), whether the body parses as JSON,
the value of the body's `"detail"` field when the body is a JSON object
carrying one, and the raw body text. -/
structure HttpResponse where
  status_code : Nat
  content_type : Option String
  json_ok : Bool
  json_detail : Option String
  text : String
deriving DecidableEq, Repr

/-- The outcome of issuing one HTTP request: a response from the server, a
connection-level failure (`requests.RequestException` with `err.response is
None`), or a local non-`RequestException` failure raised while issuing the
request. -/
inductive RequestOutcome
  | response (r : HttpResponse)
  | connectionFailure (err : String)
  | localFailure (err : String)
deriving DecidableEq, Repr

/-- `requests` `Response.raise_for_status()`: raises `HTTPError` exactly for
status codes in `[400, 600)`. -/
def raiseForStatusRaises (status : Nat) : Bool :=
  400 ≤ status && status < 600

/-- `calls.py` lines 9-31, `make_request`:

* connection failure (no response object): `BugoutResponseException("Network
  error", 599, str(err))`;
* error status (`raise_for_status` raised): detail from the JSON body's
  `"detail"` field when the `Content-Type` header equals `"application/json"`
  (a body that fails to parse, or parses without a `"detail"` key, raises
  inside the handler and escapes untranslated), else the raw body text;
* any other exception raised inside the `try` block: `BugoutUnexpectedResponse`;
* otherwise `return response.json()` — this line sits OUTSIDE the `try`
  block, so a body that fails to parse raises the decode error untranslated.

The successful return value (the parsed JSON) is represented by the response
record itself. -/
def make_request (outcome : RequestOutcome) : Except PyErr HttpResponse :=
  match outcome with
  | .connectionFailure err =>
      .error (.bugoutResponseException "Network error" 599 err)
  | .localFailure err =>
      .error (.bugoutUnexpectedResponse err)
  | .response r =>
      if raiseForStatusRaises r.status_code then
        if r.content_type = some "application/json" then
          if r.json_ok then
            match r.json_detail with
            | some d =>
                .error (.bugoutResponseException
                  "An exception occurred at Bugout API side" r.status_code d)
            | none => .error (.keyError "detail")
          else .error (.jsonDecodeError r.text)
        else
          .error (.bugoutResponseException
            "An exception occurred at Bugout API side" r.status_code r.text)
      else
        if r.json_ok then .ok r else .error (.jsonDecodeError r.text)

/-! ### `bugout/jobs.py`: the queue object and its client-side computations -/

def DEFAULT_CONTEXT_TYPE : String := "job"

def DEFAULT_SUCCESS_TAG : String := "job:success"

def DEFAULT_FAILURE_TAG : String := "job:failure"

def DEFAULT_CURSOR_CONTEXT_TYPE : String := "job_cursor"

/-- `jobs.py` `JobView` enum. -/
inductive JobView
  | REMAINING
  | SUCCESS
  | FAILURE
deriving DecidableEq, Repr

/-- The configuration a `BugoutJobQueue` instance stores (`jobs.py` lines
47-68). `auth_type` is kept as a plain string, exactly as in the source, where
it defaults to `AuthType.bearer.name`, i.e. `"bearer"`. -/
structure BugoutJobQueue where
  bugout_token : String
  journal_id : String
  context_type : String := DEFAULT_CONTEXT_TYPE
  success_tag : String := DEFAULT_SUCCESS_TAG
  failure_tag : String := DEFAULT_FAILURE_TAG
  cursor_context_type : String := DEFAULT_CURSOR_CONTEXT_TYPE
  auth_type : String := AuthType.bearer.nameStr
deriving DecidableEq, Repr

/-- `journal.py`: every `Journal` method builds the header
`f"{auth_type.value} {token}"`. -/
def journalAuthHeader (a : AuthType) (token : String) : String :=
  a.value ++ " " ++ token

/-- `app.py`: every facade method converts its string `auth_type` argument with
`data.AuthType[auth_type]` (a `KeyError` for an unknown name) before calling
into `journal.py`. -/
def facadeAuthHeader (auth_type : String) (token : String) : Except PyErr String :=
  match authTypeFromName auth_type with
  | some a => .ok (journalAuthHeader a token)
  | none => .error (.keyError auth_type)

/-- `jobs.py` lines 70-83: `create_job` calls `Bugout.create_entry` WITHOUT an
`auth_type` argument, so the facade falls back to its own default
`AuthType.bearer.name`. -/
def create_job_auth_header (q : BugoutJobQueue) : Except PyErr String :=
  facadeAuthHeader AuthType.bearer.nameStr q.bugout_token

/-- `jobs.py` lines 148-174: both searches inside `list_jobs` pass
`auth_type=self.auth_type` to the facade. -/
def list_jobs_auth_header (q : BugoutJobQueue) : Except PyErr String :=
  facadeAuthHeader q.auth_type q.bugout_token

/-- `jobs.py` lines 184-195: `job_complete` passes `auth_type=self.auth_type`. -/
def job_complete_auth_header (q : BugoutJobQueue) : Except PyErr String :=
  facadeAuthHeader q.auth_type q.bugout_token

/-- `jobs.py` lines 197-208: `job_failed` passes `auth_type=self.auth_type`. -/
def job_failed_auth_header (q : BugoutJobQueue) : Except PyErr String :=
  facadeAuthHeader q.auth_type q.bugout_token

/-- `jobs.py` line 92: `update_cursor` builds its header directly as
`f"{self.auth_type} {self.bugout_token}"` — the raw configured string, not an
`AuthType` value. -/
def update_cursor_auth_header (q : BugoutJobQueue) : String :=
  q.auth_type ++ " " ++ q.bugout_token

/-- `jobs.py` lines 100-107: `update_cursor` posts with plain `requests.post`
followed by `r.raise_for_status()` — no translation into the library's
exception taxonomy. -/
def update_cursor_http (outcome : RequestOutcome) : Except PyErr HttpResponse :=
  match outcome with
  | .connectionFailure err => .error (.requestsConnectionError err)
  | .localFailure err => .error (.pythonError err)
  | .response r =>
      if raiseForStatusRaises r.status_code then .error (.httpError r.status_code)
      else .ok r

/-- `create_job` → `Bugout.create_entry` → `Journal.create_entry` → `_call` →
`make_request`: the transport behaviour of `create_job` is `make_request`. -/
def create_job_http (outcome : RequestOutcome) : Except PyErr HttpResponse :=
  make_request outcome

/-- `list_jobs` → `Bugout.search` → `Journal.search` → `_call` →
`make_request`: the transport behaviour of each search inside `list_jobs` is
`make_request`. -/
def list_jobs_http (outcome : RequestOutcome) : Except PyErr HttpResponse :=
  make_request outcome

/-- `job_complete` / `job_failed` → `Bugout.update_tags` →
`Journal.update_tags` → `_call` → `make_request`. -/
def update_tags_http (outcome : RequestOutcome) : Except PyErr HttpResponse :=
  make_request outcome

/-- The detail string `make_request` extracts from an error response
(`calls.py` lines 20-23): the JSON body's `"detail"` field when the
`Content-Type` header equals `"application/json"`, else the raw text; `none`
when the JSON branch is taken but the body cannot supply a detail. -/
def errorDetail (r : HttpResponse) : Option String :=
  if r.content_type = some "application/json" then
    if r.json_ok then r.json_detail else none
  else some r.text

/-- The record of one search request as sent by `Journal.search`
(`journal.py` lines 528-535). -/
structure SearchParams where
  q : String
  filters : List String
  limit : Nat
  offset : Nat
  content : Bool
  order : SearchOrder
deriving DecidableEq, Repr

/-- `jobs.py` lines 149-157: the cursor lookup inside `list_jobs` —
`q = "context_type:{cursor_context_type}"`, `limit=1`, `content=False`,
descending order (offset left at the `Journal.search` default `0`). -/
def cursor_search_params (q : BugoutJobQueue) : SearchParams :=
  { q := "context_type:" ++ q.cursor_context_type
    filters := []
    limit := 1
    offset := 0
    content := false
    order := .DESCENDING }

/-- `jobs.py` lines 129-164, the body of `list_jobs` up to the job search:
build `query_components`, optionally resolve the cursor from the result list
of the cursor search, and join with single spaces.

When `use_cursor` is true and the cursor search returned no results, the
source reads the local variable `cursor` without ever assigning it (the
assignment on line 159 is guarded by `if cursor_results.results:` but the use
on line 161 is not), so Python raises `UnboundLocalError`. -/
def list_jobs_query (q : BugoutJobQueue) (job_view : JobView) (use_cursor : Bool)
    (cursor_results : List BugoutSearchResult) : Except PyErr String :=
  let query_components : List String :=
    ["context_type:" ++ q.context_type] ++
      (match job_view with
       | .REMAINING => ["!tag:" ++ q.success_tag, "!tag:" ++ q.failure_tag]
       | .SUCCESS => ["tag:" ++ q.success_tag]
       | .FAILURE => ["tag:" ++ q.failure_tag])
  if use_cursor then
    match cursor_results with
    | [] => .error (.unboundLocalError "cursor")
    | cursor :: _ =>
        let created_at := pyReplaceSpaceT cursor.created_at
        .ok (String.intercalate " "
          (query_components ++ ["created_at:>" ++ created_at]))
  else
    .ok (String.intercalate " " query_components)

/-- `jobs.py` lines 164-174: the job search request of `list_jobs` — the
composed query with the caller's `limit` and `offset`, `content=True`,
ascending order. -/
def list_jobs_search_params (q : BugoutJobQueue) (job_view : JobView) (use_cursor : Bool)
    (limit offset : Nat) (cursor_results : List BugoutSearchResult) :
    Except PyErr SearchParams :=
  (list_jobs_query q job_view use_cursor cursor_results).map
    (fun query =>
      { q := query
        filters := []
        limit := limit
        offset := offset
        content := true
        order := .ASCENDING })

/-- The payload of one `update_tags` request (`journal.py` lines 466-485:
`PUT journals/{journal_id}/entries/{entry_id}/tags` with body `{"tags": tags}`). -/
structure UpdateTagsCall where
  entry_id : String
  tags : List String
deriving DecidableEq, Repr

/-- `jobs.py` lines 184-195: `job_complete` sends exactly the single success tag. -/
def job_complete_call (q : BugoutJobQueue) (job_id : String) : UpdateTagsCall :=
  { entry_id := job_id, tags := [q.success_tag] }

/-- `jobs.py` lines 197-208: `job_failed` sends exactly the single failure tag. -/
def job_failed_call (q : BugoutJobQueue) (job_id : String) : UpdateTagsCall :=
  { entry_id := job_id, tags := [q.failure_tag] }

/-! ### Protocol layer: the remote journal store, modelled from the spec

The server side of the journal API is the Spire service, a different
repository; only this client is under `src/`. Its behaviour is therefore
modelled from the spec (spec.md §6, "EXTERNAL INTERFACES", and §4): a store of
tagged, timestamped entries; a search endpoint evaluating a conjunction of
structured terms, sorting by creation time in the requested order and paging
with offset then limit; entry creation appending a record; tag update with
merge semantics. Creation times are abstracted as natural numbers. -/

/-- Modelled from the spec: one journal entry as stored by the remote journal
(spec.md §3, §6 — title, content, tags, context metadata, timestamps; the
search endpoint exposes an `entry_url` whose final path segment is the entry
id). -/
structure Entry where
  id : String
  entry_url : String
  title : String
  content : String
  tags : List String
  context_type : Option String
  context_id : Option String
  created_at : Nat
deriving DecidableEq, Repr

/-- Modelled from the spec: the remote journal is a store of entries. -/
structure JournalState where
  entries : List Entry
deriving DecidableEq, Repr

/-- A structured query term of the grammar of spec.md §6: `key:value` terms,
negation prefixed with `!`, and the `created_at:>` lower bound. These are the
only term shapes the job-queue client emits. -/
inductive QueryTerm
  | contextTypeIs (s : String)
  | hasTag (t : String)
  | notHasTag (t : String)
  | createdAtGt (t : Nat)
deriving DecidableEq, Repr

/-- Modelled from the spec: whether an entry satisfies one query term. -/
def matchesTerm (e : Entry) : QueryTerm → Bool
  | .contextTypeIs s => decide (e.context_type = some s)
  | .hasTag t => e.tags.contains t
  | .notHasTag t => !(e.tags.contains t)
  | .createdAtGt t => decide (t < e.created_at)

/-- Modelled from the spec: a query is the conjunction of its terms. -/
def matchesQuery (e : Entry) (query : List QueryTerm) : Bool :=
  query.all (matchesTerm e)

/-- Ascending comparison of entries by creation time. -/
def entryLE (a b : Entry) : Prop := a.created_at ≤ b.created_at

instance : DecidableRel entryLE := fun a b => Nat.decLe a.created_at b.created_at

instance : IsTotal Entry entryLE := ⟨fun a b => Nat.le_total a.created_at b.created_at⟩

instance : IsTrans Entry entryLE := ⟨fun _ _ _ h1 h2 => Nat.le_trans h1 h2⟩

/-- Descending comparison of entries by creation time. -/
def entryGE (a b : Entry) : Prop := b.created_at ≤ a.created_at

instance : DecidableRel entryGE := fun a b => Nat.decLe b.created_at a.created_at

instance : IsTotal Entry entryGE := ⟨fun a b => Nat.le_total b.created_at a.created_at⟩

instance : IsTrans Entry entryGE := ⟨fun _ _ _ h1 h2 => Nat.le_trans h2 h1⟩

/-- The entries of a state matching a query, in store order. -/
def entriesMatching (st : JournalState) (query : List QueryTerm) : List Entry :=
  st.entries.filter (fun e => matchesQuery e query)

/-- Modelled from the spec: the journal's search endpoint (spec.md §6) — the
matching entries, sorted by creation time in the requested order, after
dropping `offset` results and returning at most `limit`. -/
def searchEntries (st : JournalState) (query : List QueryTerm)
    (limit offset : Nat) (order : SearchOrder) : List Entry :=
  let hits := entriesMatching st query
  let sorted :=
    match order with
    | .ASCENDING => List.insertionSort entryLE hits
    | .DESCENDING => List.insertionSort entryGE hits
  (sorted.drop offset).take limit

/-- `jobs.py` lines 129-146 as structured terms: the filter of `list_jobs` —
always the queue's `context_type` term, plus the view-specific tag terms. -/
def listJobsTerms (q : BugoutJobQueue) (job_view : JobView) : List QueryTerm :=
  [.contextTypeIs q.context_type] ++
    (match job_view with
     | .REMAINING => [.notHasTag q.success_tag, .notHasTag q.failure_tag]
     | .SUCCESS => [.hasTag q.success_tag]
     | .FAILURE => [.hasTag q.failure_tag])

/-- `jobs.py` line 152 as a structured term: the cursor lookup query. -/
def cursorQuery (q : BugoutJobQueue) : List QueryTerm :=
  [.contextTypeIs q.cursor_context_type]

/-- The projection of a stored entry into a `list_jobs` result (content
included, since the job search passes `content=True`), with the `id` field
extracted from the trailing path segment of the entry URL exactly as on
`jobs.py` line 178. -/
structure JobResult where
  entry_url : String
  title : String
  content : Option String
  tags : List String
  created_at : Nat
  id : String
deriving DecidableEq, Repr

/-- Project one stored entry into the typed result `list_jobs` returns. -/
def entryToJobResult (e : Entry) : JobResult :=
  { entry_url := e.entry_url
    title := e.title
    content := some e.content
    tags := e.tags
    created_at := e.created_at
    id := lastPathSegment e.entry_url }

/-- `jobs.py` lines 109-182, `list_jobs` against the modelled store:

1. build the view filter terms;
2. when `use_cursor` is true, run the descending single-result cursor search;
   an empty result leaves the local variable `cursor` unassigned and the
   unconditional use on line 161 raises `UnboundLocalError`; otherwise append
   the `created_at:>` lower bound at the cursor's creation time;
3. run the job search ascending with the caller's `limit`/`offset`;
4. project each hit, extracting `id` from the entry URL. -/
def list_jobs (q : BugoutJobQueue) (st : JournalState) (job_view : JobView)
    (use_cursor : Bool) (limit offset : Nat) : Except PyErr (List JobResult) :=
  let base := listJobsTerms q job_view
  let termsE : Except PyErr (List QueryTerm) :=
    if use_cursor then
      match searchEntries st (cursorQuery q) 1 0 .DESCENDING with
      | [] => .error (.unboundLocalError "cursor")
      | cursor :: _ => .ok (base ++ [.createdAtGt cursor.created_at])
    else .ok base
  termsE.map (fun terms =>
    (searchEntries st terms limit offset .ASCENDING).map entryToJobResult)

/-- `jobs.py` line 79: the tag list attached to a new job. -/
def jobTags (q : BugoutJobQueue) (context_id : String) : List String :=
  [q.context_type, q.context_type ++ ":" ++ context_id]

/-- `jobs.py` lines 70-83 against the modelled store: `create_job` appends one
entry with the job tags and the queue's `context_type`; the server assigns the
entry id, URL and creation time. -/
def create_job (q : BugoutJobQueue) (st : JournalState)
    (newId url : String) (now : Nat)
    (context_id job_title job_content : String) : JournalState :=
  { entries := st.entries ++
      [{ id := newId
         entry_url := url
         title := job_title
         content := job_content
         tags := jobTags q context_id
         context_type := some q.context_type
         context_id := some context_id
         created_at := now }] }

/-- `jobs.py` line 91: the tag placed on cursor entries. -/
def cursorTag (q : BugoutJobQueue) : String :=
  "cursor:" ++ q.cursor_context_type

/-- `jobs.py` lines 85-107 against the modelled store: `update_cursor` appends
a fresh cursor entry (never an update of an older one) carrying the requested
creation time, the cursor context type, title and single tag
`cursor:{cursor_context_type}` and empty content. -/
def update_cursor (q : BugoutJobQueue) (st : JournalState)
    (newId url : String) (created_at : Nat) : JournalState :=
  { entries := st.entries ++
      [{ id := newId
         entry_url := url
         title := cursorTag q
         content := ""
         tags := [cursorTag q]
         context_type := some q.cursor_context_type
         context_id := none
         created_at := created_at }] }

/-- Modelled from the spec: the tag-update endpoint's merge semantics
(spec.md §6 — "update entry tags: ... merge semantics"): tags already present
are preserved, new tags not yet present are appended. -/
def mergeTags (old new : List String) : List String :=
  old ++ new.filter (fun t => !(old.contains t))

/-- Modelled from the spec: applying one `update_tags` call to the store —
every entry with the given id receives the merged tag set. -/
def updateTagsStore (st : JournalState) (entry_id : String) (tags : List String) :
    JournalState :=
  { entries := st.entries.map (fun e =>
      if e.id = entry_id then { e with tags := mergeTags e.tags tags } else e) }

/-- `jobs.py` lines 184-195 against the modelled store: `job_complete` merges
in exactly the single success tag. -/
def job_complete (q : BugoutJobQueue) (st : JournalState) (job_id : String) :
    JournalState :=
  updateTagsStore st job_id (job_complete_call q job_id).tags

/-- `jobs.py` lines 197-208 against the modelled store: `job_failed` merges in
exactly the single failure tag. -/
def job_failed (q : BugoutJobQueue) (st : JournalState) (job_id : String) :
    JournalState :=
  updateTagsStore st job_id (job_failed_call q job_id).tags

/-- One queue operation, for stating invariants over operation sequences.
`listJobs` is a read and leaves the store unchanged. -/
inductive QueueOp
  | createJob (newId url : String) (now : Nat) (context_id job_title job_content : String)
  | updateCursor (newId url : String) (created_at : Nat)
  | jobComplete (job_id : String)
  | jobFailed (job_id : String)
  | listJobs (job_view : JobView) (use_cursor : Bool) (limit offset : Nat)
deriving DecidableEq, Repr

/-- The store after one queue operation. -/
def applyOp (q : BugoutJobQueue) (st : JournalState) : QueueOp → JournalState
  | .createJob newId url now cid t c => create_job q st newId url now cid t c
  | .updateCursor newId url created_at => update_cursor q st newId url created_at
  | .jobComplete job_id => job_complete q st job_id
  | .jobFailed job_id => job_failed q st job_id
  | .listJobs _ _ _ _ => st

/-- The store after a sequence of queue operations. -/
def applyOps (q : BugoutJobQueue) (st : JournalState) (ops : List QueueOp) :
    JournalState :=
  ops.foldl (applyOp q) st

/-- Well-formedness of the store, guaranteed by the spec's search endpoint
contract (spec.md §6): each entry's URL ends in its id. -/
def stateWF (st : JournalState) : Prop :=
  ∀ e ∈ st.entries, lastPathSegment e.entry_url = e.id

/-! ### Helper lemmas about the modelled store -/

/-- `List.contains` on strings agrees with membership. -/
theorem contains_iff_mem {l : List String} {a : String} :
    l.contains a = true ↔ a ∈ l := by
  simp

/-- Everything the search endpoint returns comes from the store and matches the query. -/
theorem mem_of_mem_searchEntries {st : JournalState} {query : List QueryTerm}
    {limit offset : Nat} {order : SearchOrder} {e : Entry}
    (h : e ∈ searchEntries st query limit offset order) :
    e ∈ st.entries ∧ matchesQuery e query = true := by
  unfold searchEntries at h
  have hsorted : e ∈ entriesMatching st query := by
    have hmem := List.mem_of_mem_drop (List.mem_of_mem_take h)
    cases order with
    | ASCENDING => exact (List.perm_insertionSort entryLE _).mem_iff.mp hmem
    | DESCENDING => exact (List.perm_insertionSort entryGE _).mem_iff.mp hmem
  have := List.mem_filter.mp hsorted
  exact ⟨this.1, this.2⟩

/-- With offset `0` and a limit at least the number of matches, the search
endpoint returns every matching entry. -/
theorem mem_searchEntries_of_matches {st : JournalState} {query : List QueryTerm}
    {limit : Nat} (hlim : (entriesMatching st query).length ≤ limit)
    {e : Entry} (he : e ∈ st.entries) (hm : matchesQuery e query = true)
    (order : SearchOrder) :
    e ∈ searchEntries st query limit 0 order := by
  unfold searchEntries
  have hfil : e ∈ entriesMatching st query := List.mem_filter.mpr ⟨he, hm⟩
  cases order with
  | ASCENDING =>
      have hperm := List.perm_insertionSort entryLE (entriesMatching st query)
      have hmem : e ∈ List.insertionSort entryLE (entriesMatching st query) :=
        hperm.mem_iff.mpr hfil
      have hlen : (List.insertionSort entryLE (entriesMatching st query)).length ≤ limit := by
        rw [hperm.length_eq]; exact hlim
      simpa [List.drop_zero, List.take_of_length_le hlen] using hmem
  | DESCENDING =>
      have hperm := List.perm_insertionSort entryGE (entriesMatching st query)
      have hmem : e ∈ List.insertionSort entryGE (entriesMatching st query) :=
        hperm.mem_iff.mpr hfil
      have hlen : (List.insertionSort entryGE (entriesMatching st query)).length ≤ limit := by
        rw [hperm.length_eq]; exact hlim
      simpa [List.drop_zero, List.take_of_length_le hlen] using hmem

/-- The ascending search result is sorted by creation time. -/
theorem searchEntries_sorted_asc (st : JournalState) (query : List QueryTerm)
    (limit offset : Nat) :
    List.Sorted entryLE (searchEntries st query limit offset .ASCENDING) := by
  unfold searchEntries
  have hs : List.Sorted entryLE (List.insertionSort entryLE (entriesMatching st query)) :=
    List.sorted_insertionSort entryLE _
  exact hs.sublist
    ((((List.insertionSort entryLE (entriesMatching st query)).drop offset).take_sublist
        limit).trans
      ((List.insertionSort entryLE (entriesMatching st query)).drop_sublist offset))

/-- The descending single-result search, when any entry matches, returns
exactly one entry: a matching one of maximal creation time. -/
theorem searchEntries_desc_one {st : JournalState} {query : List QueryTerm}
    (hne : entriesMatching st query ≠ []) :
    ∃ c, searchEntries st query 1 0 .DESCENDING = [c] ∧ c ∈ st.entries ∧
      matchesQuery c query = true ∧
      ∀ e ∈ st.entries, matchesQuery e query = true → e.created_at ≤ c.created_at := by
  have hperm := List.perm_insertionSort entryGE (entriesMatching st query)
  have hsorted := List.sorted_insertionSort entryGE (entriesMatching st query)
  cases hs : List.insertionSort entryGE (entriesMatching st query) with
  | nil =>
      rw [hs] at hperm
      exact absurd hperm.symm.eq_nil hne
  | cons c rest =>
      refine ⟨c, ?_, ?_, ?_, ?_⟩
      · unfold searchEntries
        simp [hs, List.drop_zero]
      · have : c ∈ entriesMatching st query := by
          have : c ∈ List.insertionSort entryGE (entriesMatching st query) := by
            rw [hs]; exact List.mem_cons_self c rest
          exact hperm.mem_iff.mp this
        exact (List.mem_filter.mp this).1
      · have : c ∈ entriesMatching st query := by
          have : c ∈ List.insertionSort entryGE (entriesMatching st query) := by
            rw [hs]; exact List.mem_cons_self c rest
          exact hperm.mem_iff.mp this
        exact (List.mem_filter.mp this).2
      · intro e he hm
        have hfil : e ∈ entriesMatching st query := List.mem_filter.mpr ⟨he, hm⟩
        have hmem : e ∈ List.insertionSort entryGE (entriesMatching st query) :=
          hperm.mem_iff.mpr hfil
        rw [hs] at hmem
        rcases List.mem_cons.mp hmem with heq | htail
        · subst heq; exact Nat.le_refl _
        · have := List.rel_of_sorted_cons (hs ▸ hsorted) e htail
          exact this

/-- In a list sorted by creation time, an entry with a strictly smaller
creation time sits at a strictly smaller index. -/
theorem sorted_index_lt {l : List Entry} (hs : List.Sorted entryLE l)
    {i j : Nat} {a b : Entry}
    (ha : l.get? i = some a) (hb : l.get? j = some b)
    (hab : a.created_at < b.created_at) : i < j := by
  by_contra hle
  push_neg at hle
  obtain ⟨hi, hga⟩ := List.get?_eq_some.mp ha
  obtain ⟨hj, hgb⟩ := List.get?_eq_some.mp hb
  rcases Nat.lt_or_ge j i with hlt | hge
  · have hfin : (⟨j, hj⟩ : Fin l.length) < ⟨i, hi⟩ := hlt
    have := hs.rel_get_of_lt hfin
    rw [hga, hgb] at this
    exact absurd (Nat.lt_of_lt_of_le hab this) (Nat.lt_irrefl _)
  · have hij : i = j := Nat.le_antisymm hge hle
    subst hij
    rw [ha] at hb
    have : a = b := by injection hb
    subst this
    exact Nat.lt_irrefl _ hab

/-- A member of a list occurs at some index. -/
theorem exists_get?_of_mem {l : List Entry} {a : Entry} (h : a ∈ l) :
    ∃ n, l.get? n = some a := by
  obtain ⟨n, hn⟩ := List.get_of_mem h
  exact ⟨n, by simp [List.get?_eq_get]; exact hn⟩

/-- Tags already present survive a merge. -/
theorem mem_mergeTags_left {old new : List String} {t : String} (h : t ∈ old) :
    t ∈ mergeTags old new :=
  List.mem_append_left _ h

/-- The merged-in tag is present after a single-tag merge. -/
theorem mem_mergeTags_single (old : List String) (t : String) :
    t ∈ mergeTags old [t] := by
  by_cases h : t ∈ old
  · exact mem_mergeTags_left h
  · refine List.mem_append_right _ ?_
    simp [List.mem_filter, h]

/-- Merging a tag that is already present changes nothing. -/
theorem mergeTags_eq_of_mem {old : List String} {t : String} (h : t ∈ old) :
    mergeTags old [t] = old := by
  unfold mergeTags
  simp [h]

/-- A single-tag merge is idempotent. -/
theorem mergeTags_single_idem (old : List String) (t : String) :
    mergeTags (mergeTags old [t]) [t] = mergeTags old [t] :=
  mergeTags_eq_of_mem (mem_mergeTags_single old t)

/-! ### Concrete sample values used by witnesses and counterexamples -/

/-- A queue with all defaults (`context_type "job"`, tags `job:success` /
`job:failure`, cursor context `job_cursor`, auth type name `"bearer"`). -/
def sampleQueue : BugoutJobQueue := { bugout_token := "tok", journal_id := "j" }

/-- A 404 response with a plain-text body. -/
def resp404 : HttpResponse := ⟨404, some "text/plain", false, none, "Not Found"⟩

/-- A 500 response with no content type. -/
def resp500 : HttpResponse := ⟨500, none, false, none, "boom"⟩

/-- A 200 response whose body is not valid JSON. -/
def resp200html : HttpResponse := ⟨200, some "text/html", false, none, "<html>"⟩

/-- A raw search result whose timestamp contains a space. -/
def sampleCursorResult : BugoutSearchResult :=
  ⟨"u", "c", "t", none, [], "2024-01-02 03:04:05", "x"⟩

/-! ### Claim C1 -/

/-- C1: the claim says that with no cursor entry in the journal,
`list_jobs(use_cursor=True)` completes normally and behaves as
`use_cursor=False`. The code instead raises `UnboundLocalError`: the
assignment of the local `cursor` (jobs.py line 159) is guarded by
`if cursor_results.results:` while its use on line 161 is not. This theorem
evaluates the embedded code at the failing inputs: whenever no entry carries
the queue's cursor context type, `list_jobs` with `use_cursor=True` raises
`UnboundLocalError` for the local variable `cursor`. -/
theorem C1_no_cursor_raises_UnboundLocalError (q : BugoutJobQueue)
    (st : JournalState) (job_view : JobView) (limit offset : Nat)
    (hnone : ∀ e ∈ st.entries, e.context_type ≠ some q.cursor_context_type) :
    list_jobs q st job_view true limit offset =
      .error (.unboundLocalError "cursor") := by
  have hfil : entriesMatching st (cursorQuery q) = [] := by
    apply List.filter_eq_nil_iff.mpr
    intro e he
    simp [matchesQuery, cursorQuery, matchesTerm, hnone e he]
  have hsearch : searchEntries st (cursorQuery q) 1 0 .DESCENDING = [] := by
    unfold searchEntries
    simp [hfil]
  simp [list_jobs, hsearch, Except.map]

/-- C1 witness: a concrete failing input — the empty journal. -/
theorem C1_witness :
    (∀ e ∈ (JournalState.mk []).entries,
      e.context_type ≠ some sampleQueue.cursor_context_type) ∧
    list_jobs sampleQueue (JournalState.mk []) .REMAINING true 10 0 =
      .error (.unboundLocalError "cursor") :=
  ⟨by simp, C1_no_cursor_raises_UnboundLocalError _ _ _ _ _ (by simp)⟩

/-! ### Claim C2 -/

/-- C2 counterexample: `update_cursor` does not route through `make_request`
(jobs.py lines 101-107 use plain `requests.post` plus `raise_for_status`), so
a 404 from the server surfaces as the HTTP library's own `HTTPError`, which is
not the client's `BugoutResponseException`. -/
theorem C2_counterexample :
    update_cursor_http (.response resp404) = .error (.httpError 404) ∧
    (PyErr.httpError 404).isBugoutResponseException = false := by
  exact ⟨rfl, rfl⟩

/-- C2 amended: for the operations that route through `make_request`
(`create_job`, `list_jobs`, `job_complete`, `job_failed`), a response with an
error status (400-599) raises `BugoutResponseException` carrying the original
status code and the extracted detail (JSON body field `detail` when the
`Content-Type` header equals `application/json`, else the raw text);
`update_cursor` instead raises the HTTP library's `HTTPError` untranslated. -/
theorem C2_amended_error_status_translation (r : HttpResponse) (d : String)
    (hlow : 400 ≤ r.status_code) (hhigh : r.status_code < 600)
    (hdetail : errorDetail r = some d) :
    create_job_http (.response r) =
      .error (.bugoutResponseException
        "An exception occurred at Bugout API side" r.status_code d) ∧
    list_jobs_http (.response r) =
      .error (.bugoutResponseException
        "An exception occurred at Bugout API side" r.status_code d) ∧
    update_tags_http (.response r) =
      .error (.bugoutResponseException
        "An exception occurred at Bugout API side" r.status_code d) ∧
    update_cursor_http (.response r) = .error (.httpError r.status_code) := by
  have hraise : raiseForStatusRaises r.status_code = true := by
    simp [raiseForStatusRaises]
    omega
  have hmr : make_request (.response r) =
      .error (.bugoutResponseException
        "An exception occurred at Bugout API side" r.status_code d) := by
    simp only [make_request]
    rw [hraise]
    simp only [if_true]
    by_cases hct : r.content_type = some "application/json"
    · rw [errorDetail, if_pos hct] at hdetail
      cases hok : r.json_ok with
      | false => rw [hok] at hdetail; simp at hdetail
      | true =>
          rw [hok] at hdetail
          simp only [if_true] at hdetail
          simp [hct, hok, hdetail]
    · rw [errorDetail, if_neg hct] at hdetail
      have : r.text = d := by injection hdetail
      simp [hct, this]
  refine ⟨hmr, hmr, hmr, ?_⟩
  simp only [update_cursor_http]
  rw [hraise]
  simp

/-- C2 witness: a concrete 500 response with a plain-text body. -/
theorem C2_witness :
    (400 ≤ 500 ∧ 500 < 600 ∧ errorDetail resp500 = some "boom") ∧
    update_tags_http (.response resp500) =
      .error (.bugoutResponseException
        "An exception occurred at Bugout API side" 500 "boom") :=
  ⟨⟨by decide, by decide, by decide⟩,
    (C2_amended_error_status_translation resp500 "boom"
      (by decide) (by decide) (by decide)).2.2.1⟩

/-! ### Claim C3 -/

/-- C3: `list_jobs` builds the search query as the space-joined conjunction of
structured terms — always `context_type:<queue context type>`; for REMAINING
additionally `!tag:<success_tag>` and `!tag:<failure_tag>`; for SUCCESS
(resp. FAILURE) additionally `tag:<success_tag>` (resp. `tag:<failure_tag>`);
and, when `use_cursor` is true and a cursor entry exists, a final term
`created_at:>` followed by the cursor's `created_at` with every space replaced
by `T`. -/
theorem C3_query_structure (q : BugoutJobQueue) (job_view : JobView)
    (use_cursor : Bool) (cursor_results : List BugoutSearchResult)
    (h : use_cursor = false ∨ cursor_results ≠ []) :
    list_jobs_query q job_view use_cursor cursor_results =
      .ok (String.intercalate " "
        (["context_type:" ++ q.context_type]
          ++ (match job_view with
              | .REMAINING => ["!tag:" ++ q.success_tag, "!tag:" ++ q.failure_tag]
              | .SUCCESS => ["tag:" ++ q.success_tag]
              | .FAILURE => ["tag:" ++ q.failure_tag])
          ++ (match use_cursor, cursor_results with
              | true, cursor :: _ =>
                  ["created_at:>" ++ pyReplaceSpaceT cursor.created_at]
              | _, _ => []))) := by
  cases use_cursor with
  | false => simp [list_jobs_query]
  | true =>
      cases cursor_results with
      | nil => rcases h with h | h <;> simp at h
      | cons cursor rest => simp [list_jobs_query]

/-- C3 witness: the default queue, REMAINING view, one cursor result whose
timestamp contains a space. -/
theorem C3_witness :
    ((true = false) ∨ [sampleCursorResult] ≠ []) ∧
    list_jobs_query sampleQueue .REMAINING true [sampleCursorResult] =
      .ok "context_type:job !tag:job:success !tag:job:failure created_at:>2024-01-02T03:04:05" :=
  ⟨Or.inr (by decide),
    (C3_query_structure sampleQueue .REMAINING true [sampleCursorResult]
      (Or.inr (by decide))).trans (by rfl)⟩

/-! ### Claim C8 -/

/-- C8 counterexample: a 2xx response whose body is not valid JSON does NOT
raise `BugoutUnexpectedResponse` — the `return response.json()` on calls.py
line 31 sits outside the `try` block, so the decode error escapes
untranslated. -/
theorem C8_counterexample :
    make_request (.response resp200html) = .error (.jsonDecodeError "<html>") ∧
    (PyErr.jsonDecodeError "<html>").isBugoutUnexpectedResponse = false := by
  exact ⟨rfl, rfl⟩

/-- C8 amended: a local non-`RequestException` failure raised while issuing
the request (inside the `try` block) is raised as `BugoutUnexpectedResponse`
immediately, with no retry; but a response whose status does not trigger
`raise_for_status` and whose body is not valid JSON raises the JSON decoder's
own error, untranslated, because `response.json()` is evaluated outside the
`try` block. -/
theorem C8_amended_local_failure_translation (r : HttpResponse) (err : String)
    (hok : r.status_code < 400) (hbad : r.json_ok = false) :
    make_request (.response r) = .error (.jsonDecodeError r.text) ∧
    make_request (.localFailure err) = .error (.bugoutUnexpectedResponse err) := by
  have hraise : raiseForStatusRaises r.status_code = false := by
    simp [raiseForStatusRaises]
    omega
  constructor
  · simp only [make_request]
    rw [hraise]
    simp [hbad]
  · rfl

/-- C8 witness: a concrete 200 response with a non-JSON body, and a concrete
local failure. -/
theorem C8_witness :
    (resp200html.status_code < 400 ∧ resp200html.json_ok = false) ∧
    make_request (.response resp200html) =
      .error (.jsonDecodeError resp200html.text) ∧
    make_request (.localFailure "TypeError") =
      .error (.bugoutUnexpectedResponse "TypeError") :=
  ⟨⟨by decide, by decide⟩,
    C8_amended_local_failure_translation resp200html "TypeError" (by decide) (by decide)⟩

/-! ### Claim C9 -/

/-- C9 counterexample: the claim says every queue operation sends a header
`<scheme> <token>` with scheme exactly `Bearer` or `Web3`. But `update_cursor`
(jobs.py line 92) interpolates the raw configured `auth_type` string — the
enum member NAME (default `"bearer"`) — so for the default queue with token
`"tok"` the header is `"bearer tok"`, which is neither `"Bearer tok"` nor
`"Web3 tok"`. -/
theorem C9_counterexample :
    update_cursor_auth_header sampleQueue = "bearer tok" ∧
    ("bearer tok" : String) ≠ "Bearer " ++ "tok" ∧
    ("bearer tok" : String) ≠ "Web3 " ++ "tok" := by
  exact ⟨by decide, by decide, by decide⟩

/-- C9 amended: the operations routed through the typed client (`create_job`,
`list_jobs`, `job_complete`, `job_failed`) send `<scheme> <token>` with scheme
the `AuthType` VALUE — exactly `Bearer` or `Web3` — whenever the configured
`auth_type` is a valid member name; `update_cursor` instead uses the
configured name string itself (`"bearer"` / `"web3"`) as the scheme. -/
theorem C9_amended_auth_header_schemes (q : BugoutJobQueue)
    (hvalid : q.auth_type = "bearer" ∨ q.auth_type = "web3") :
    create_job_auth_header q = .ok ("Bearer" ++ " " ++ q.bugout_token) ∧
    (∃ s, (s = "Bearer" ∨ s = "Web3") ∧
      list_jobs_auth_header q = .ok (s ++ " " ++ q.bugout_token) ∧
      job_complete_auth_header q = .ok (s ++ " " ++ q.bugout_token) ∧
      job_failed_auth_header q = .ok (s ++ " " ++ q.bugout_token)) ∧
    update_cursor_auth_header q = q.auth_type ++ " " ++ q.bugout_token := by
  refine ⟨rfl, ?_, rfl⟩
  rcases hvalid with h | h
  · exact ⟨"Bearer", Or.inl rfl, by
      simp [list_jobs_auth_header, facadeAuthHeader, authTypeFromName, h,
        journalAuthHeader, AuthType.value], by
      simp [job_complete_auth_header, facadeAuthHeader, authTypeFromName, h,
        journalAuthHeader, AuthType.value], by
      simp [job_failed_auth_header, facadeAuthHeader, authTypeFromName, h,
        journalAuthHeader, AuthType.value]⟩
  · exact ⟨"Web3", Or.inr rfl, by
      simp [list_jobs_auth_header, facadeAuthHeader, authTypeFromName, h,
        journalAuthHeader, AuthType.value], by
      simp [job_complete_auth_header, facadeAuthHeader, authTypeFromName, h,
        journalAuthHeader, AuthType.value], by
      simp [job_failed_auth_header, facadeAuthHeader, authTypeFromName, h,
        journalAuthHeader, AuthType.value]⟩

/-- C9 witness: the default queue (auth type name `"bearer"`). -/
theorem C9_witness :
    (sampleQueue.auth_type = "bearer" ∨ sampleQueue.auth_type = "web3") ∧
    (create_job_auth_header sampleQueue =
        .ok ("Bearer" ++ " " ++ sampleQueue.bugout_token) ∧
      (∃ s, (s = "Bearer" ∨ s = "Web3") ∧
        list_jobs_auth_header sampleQueue = .ok (s ++ " " ++ sampleQueue.bugout_token) ∧
        job_complete_auth_header sampleQueue = .ok (s ++ " " ++ sampleQueue.bugout_token) ∧
        job_failed_auth_header sampleQueue = .ok (s ++ " " ++ sampleQueue.bugout_token)) ∧
      update_cursor_auth_header sampleQueue =
        sampleQueue.auth_type ++ " " ++ sampleQueue.bugout_token) :=
  ⟨Or.inl rfl, C9_amended_auth_header_schemes sampleQueue (Or.inl rfl)⟩

/-! ### Claim C10 -/

/-- C10: `create_job` does not pass the queue's configured `auth_type` to the
underlying `create_entry` call — for every queue instance it authenticates
with the default Bearer scheme, while `list_jobs`, `job_complete` and
`job_failed` use the configured auth type (shown here for a queue configured
with `auth_type="web3"`). -/
theorem C10_create_job_ignores_configured_auth_type (q : BugoutJobQueue) :
    create_job_auth_header q = .ok ("Bearer" ++ " " ++ q.bugout_token) ∧
    (q.auth_type = "web3" →
      list_jobs_auth_header q = .ok ("Web3" ++ " " ++ q.bugout_token) ∧
      job_complete_auth_header q = .ok ("Web3" ++ " " ++ q.bugout_token) ∧
      job_failed_auth_header q = .ok ("Web3" ++ " " ++ q.bugout_token)) := by
  refine ⟨rfl, fun h => ⟨?_, ?_, ?_⟩⟩
  · simp [list_jobs_auth_header, facadeAuthHeader, authTypeFromName, h,
      journalAuthHeader, AuthType.value]
  · simp [job_complete_auth_header, facadeAuthHeader, authTypeFromName, h,
      journalAuthHeader, AuthType.value]
  · simp [job_failed_auth_header, facadeAuthHeader, authTypeFromName, h,
      journalAuthHeader, AuthType.value]

/-- C10 witness: a queue constructed with `auth_type="web3"` — `create_job`
still sends `Bearer`, the other operations send `Web3`. -/
theorem C10_witness :
    create_job_auth_header { bugout_token := "tok", journal_id := "j", auth_type := "web3" } =
      .ok ("Bearer" ++ " " ++ "tok") ∧
    list_jobs_auth_header { bugout_token := "tok", journal_id := "j", auth_type := "web3" } =
      .ok ("Web3" ++ " " ++ "tok") ∧
    job_complete_auth_header { bugout_token := "tok", journal_id := "j", auth_type := "web3" } =
      .ok ("Web3" ++ " " ++ "tok") ∧
    job_failed_auth_header { bugout_token := "tok", journal_id := "j", auth_type := "web3" } =
      .ok ("Web3" ++ " " ++ "tok") :=
  ⟨(C10_create_job_ignores_configured_auth_type _).1,
    ((C10_create_job_ignores_configured_auth_type
      { bugout_token := "tok", journal_id := "j", auth_type := "web3" }).2 rfl).1,
    ((C10_create_job_ignores_configured_auth_type
      { bugout_token := "tok", journal_id := "j", auth_type := "web3" }).2 rfl).2.1,
    ((C10_create_job_ignores_configured_auth_type
      { bugout_token := "tok", journal_id := "j", auth_type := "web3" }).2 rfl).2.2⟩

/-! ### Claim C6 -/

/-- One queue operation never removes a tag: every entry survives (same id,
same creation time) with all its previous tags still present. -/
theorem applyOp_preserves_tags (q : BugoutJobQueue) (st : JournalState)
    (op : QueueOp) {e : Entry} (he : e ∈ st.entries) :
    ∃ e2 ∈ (applyOp q st op).entries,
      e2.id = e.id ∧ e2.created_at = e.created_at ∧ ∀ t ∈ e.tags, t ∈ e2.tags := by
  cases op with
  | createJob newId url now cid jt jc =>
      exact ⟨e, List.mem_append_left _ he, rfl, rfl, fun t ht => ht⟩
  | updateCursor newId url created_at =>
      exact ⟨e, List.mem_append_left _ he, rfl, rfl, fun t ht => ht⟩
  | listJobs v uc l o =>
      exact ⟨e, he, rfl, rfl, fun t ht => ht⟩
  | jobComplete jid =>
      by_cases hid : e.id = jid
      · refine ⟨{ e with tags := mergeTags e.tags [q.success_tag] }, ?_, rfl, rfl, ?_⟩
        · have hmem := List.mem_map_of_mem (fun a =>
            if a.id = jid then { a with tags := mergeTags a.tags [q.success_tag] } else a) he
          simpa [applyOp, job_complete, updateTagsStore, job_complete_call, hid]
            using hmem
        · intro t ht; exact mem_mergeTags_left ht
      · refine ⟨e, ?_, rfl, rfl, fun t ht => ht⟩
        have hmem := List.mem_map_of_mem (fun a =>
          if a.id = jid then { a with tags := mergeTags a.tags [q.success_tag] } else a) he
        simpa [applyOp, job_complete, updateTagsStore, job_complete_call, hid]
          using hmem
  | jobFailed jid =>
      by_cases hid : e.id = jid
      · refine ⟨{ e with tags := mergeTags e.tags [q.failure_tag] }, ?_, rfl, rfl, ?_⟩
        · have hmem := List.mem_map_of_mem (fun a =>
            if a.id = jid then { a with tags := mergeTags a.tags [q.failure_tag] } else a) he
          simpa [applyOp, job_failed, updateTagsStore, job_failed_call, hid]
            using hmem
        · intro t ht; exact mem_mergeTags_left ht
      · refine ⟨e, ?_, rfl, rfl, fun t ht => ht⟩
        have hmem := List.mem_map_of_mem (fun a =>
          if a.id = jid then { a with tags := mergeTags a.tags [q.failure_tag] } else a) he
        simpa [applyOp, job_failed, updateTagsStore, job_failed_call, hid]
          using hmem

/-- C6: `job_complete` (resp. `job_failed`) sends exactly the single success
(resp. failure) tag through the merge-semantics tag update, and across any
sequence of queue operations an entry keeps every tag it already carries —
in particular a success or failure tag is never removed. -/
theorem C6_marking_is_additive_and_permanent (q : BugoutJobQueue)
    (st : JournalState) (ops : List QueueOp) (job_id : String)
    (e : Entry) (tag : String) (he : e ∈ st.entries) (ht : tag ∈ e.tags) :
    ((job_complete_call q job_id).tags = [q.success_tag] ∧
      (job_failed_call q job_id).tags = [q.failure_tag]) ∧
    ∃ e2 ∈ (applyOps q st ops).entries, e2.id = e.id ∧ tag ∈ e2.tags := by
  refine ⟨⟨rfl, rfl⟩, ?_⟩
  induction ops generalizing st e with
  | nil => exact ⟨e, he, rfl, ht⟩
  | cons op rest ih =>
      obtain ⟨e2, hmem, hid, _, htags⟩ := applyOp_preserves_tags q st op he
      obtain ⟨e3, hmem3, hid3, ht3⟩ := ih (applyOp q st op) e2 hmem (htags tag ht)
      exact ⟨e3, hmem3, hid3.trans hid, ht3⟩

/-- A one-entry journal used by witnesses: a job entry already carrying the
default success tag. -/
def sampleEntry : Entry :=
  ⟨"e1", "j/entries/e1", "T", "C", ["job:success"], some "job", some "42", 1⟩

/-- The journal state holding just `sampleEntry`. -/
def sampleState : JournalState := ⟨[sampleEntry]⟩

/-- A sample operation sequence exercising every kind of queue operation. -/
def sampleOps : List QueueOp :=
  [.jobFailed "e1", .updateCursor "c1" "j/entries/c1" 5,
   .createJob "e2" "j/entries/e2" 6 "43" "T2" "C2",
   .listJobs .REMAINING false 10 0, .jobComplete "e1"]

/-- C6 witness: the one-entry journal carrying the default success tag, run
through a sequence containing each kind of operation. -/
theorem C6_witness :
    (sampleEntry ∈ sampleState.entries ∧ "job:success" ∈ sampleEntry.tags) ∧
    ∃ e2 ∈ (applyOps sampleQueue sampleState sampleOps).entries,
      e2.id = sampleEntry.id ∧ "job:success" ∈ e2.tags :=
  ⟨⟨by decide, by decide⟩,
    (C6_marking_is_additive_and_permanent sampleQueue sampleState sampleOps "e1"
      sampleEntry "job:success" (by decide) (by decide)).2⟩

/-! ### Claim C7 -/

/-- Applying the same single-tag merge twice equals applying it once. -/
theorem updateTagsStore_single_idem (st : JournalState) (jid t : String) :
    updateTagsStore (updateTagsStore st jid [t]) jid [t] =
      updateTagsStore st jid [t] := by
  unfold updateTagsStore
  apply congrArg JournalState.mk
  rw [List.map_map]
  apply List.map_congr_left
  intro a _
  by_cases h : a.id = jid
  · simp [Function.comp, h, mergeTags_single_idem]
  · simp [Function.comp, h]

/-- `updateTagsStore` keeps ids and URLs, hence preserves well-formedness. -/
theorem stateWF_updateTagsStore {st : JournalState} (h : stateWF st)
    (jid : String) (tags : List String) :
    stateWF (updateTagsStore st jid tags) := by
  intro e he
  obtain ⟨a, ha, rfl⟩ := List.mem_map.mp he
  by_cases hid : a.id = jid
  · simpa [hid] using h a ha
  · simpa [hid] using h a ha

/-- C7: marking a job complete is idempotent — a second `job_complete` leaves
the journal in the same state as the first (hence all subsequent listings
coincide), and after either, the job is absent from REMAINING listings and
present in SUCCESS listings. -/
theorem C7_job_complete_idempotent (q : BugoutJobQueue) (st : JournalState)
    (job_id : String) (e : Entry) (limit offset : Nat)
    (he : e ∈ st.entries) (hid : e.id = job_id)
    (hctx : e.context_type = some q.context_type)
    (hwf : stateWF st)
    (hlim : (entriesMatching (job_complete q st job_id)
        (listJobsTerms q .SUCCESS)).length ≤ limit) :
    job_complete q (job_complete q st job_id) job_id = job_complete q st job_id ∧
    (∃ res, list_jobs q (job_complete q st job_id) .REMAINING false limit offset =
        .ok res ∧ ∀ r ∈ res, r.id ≠ job_id) ∧
    (∃ res, list_jobs q (job_complete q st job_id) .SUCCESS false limit 0 =
        .ok res ∧ ∃ r ∈ res, r.id = job_id) := by
  refine ⟨updateTagsStore_single_idem st job_id q.success_tag, ?_, ?_⟩
  · refine ⟨(searchEntries (job_complete q st job_id) (listJobsTerms q .REMAINING)
        limit offset .ASCENDING).map entryToJobResult, rfl, ?_⟩
    intro r hr
    obtain ⟨e2, he2, rfl⟩ := List.mem_map.mp hr
    obtain ⟨hmem, hmatch⟩ := mem_of_mem_searchEntries he2
    obtain ⟨a, ha, rfl⟩ := List.mem_map.mp hmem
    by_cases hida : a.id = job_id
    · exfalso
      simp only [hida, if_true, job_complete_call] at hmatch
      have hterm := (List.all_eq_true.mp hmatch) (.notHasTag q.success_tag)
        (by simp [listJobsTerms])
      simp only [matchesTerm, Bool.not_eq_true'] at hterm
      rw [contains_iff_mem.mpr (mem_mergeTags_single a.tags q.success_tag)] at hterm
      exact absurd hterm (by simp)
    · simp only [hida, if_false, entryToJobResult]
      rw [hwf a ha]
      exact hida
  · refine ⟨(searchEntries (job_complete q st job_id) (listJobsTerms q .SUCCESS)
        limit 0 .ASCENDING).map entryToJobResult, rfl, ?_⟩
    have he1 : { e with tags := mergeTags e.tags [q.success_tag] } ∈
        (job_complete q st job_id).entries := by
      have hmem := List.mem_map_of_mem (fun a =>
        if a.id = job_id then { a with tags := mergeTags a.tags [q.success_tag] }
        else a) he
      simpa [job_complete, updateTagsStore, job_complete_call, hid] using hmem
    have hm : matchesQuery { e with tags := mergeTags e.tags [q.success_tag] }
        (listJobsTerms q .SUCCESS) = true := by
      simp [matchesQuery, listJobsTerms, matchesTerm, hctx,
        mem_mergeTags_single e.tags q.success_tag]
    have hsearch := mem_searchEntries_of_matches hlim he1 hm .ASCENDING
    refine ⟨entryToJobResult { e with tags := mergeTags e.tags [q.success_tag] },
      List.mem_map_of_mem entryToJobResult hsearch, ?_⟩
    show lastPathSegment e.entry_url = job_id
    rw [hwf e he]
    exact hid

/-- The sample journal is well-formed: its single entry's URL ends in its id. -/
theorem sampleState_wf : stateWF sampleState := by
  intro e he
  have : e = sampleEntry := by simpa [sampleState] using he
  subst this
  decide

/-- C7 witness: the one-entry sample journal, marking the single job complete. -/
theorem C7_witness :
    (sampleEntry ∈ sampleState.entries ∧ sampleEntry.id = "e1" ∧
      sampleEntry.context_type = some sampleQueue.context_type ∧
      stateWF sampleState ∧
      (entriesMatching (job_complete sampleQueue sampleState "e1")
        (listJobsTerms sampleQueue .SUCCESS)).length ≤ 10) ∧
    (job_complete sampleQueue (job_complete sampleQueue sampleState "e1") "e1" =
        job_complete sampleQueue sampleState "e1" ∧
      (∃ res, list_jobs sampleQueue (job_complete sampleQueue sampleState "e1")
          .REMAINING false 10 0 = .ok res ∧ ∀ r ∈ res, r.id ≠ "e1") ∧
      (∃ res, list_jobs sampleQueue (job_complete sampleQueue sampleState "e1")
          .SUCCESS false 10 0 = .ok res ∧ ∃ r ∈ res, r.id = "e1")) :=
  ⟨⟨by decide, by decide, by decide, sampleState_wf, by decide⟩,
    C7_job_complete_idempotent sampleQueue sampleState "e1" sampleEntry 10 0
      (by decide) (by decide) (by decide) sampleState_wf (by decide)⟩

/-! ### Claim C5 -/

/-- C5: when at least one cursor entry exists, `list_jobs` with
`use_cursor=True` finds the most recent cursor entry (the single result of
the descending-order cursor search, whose timestamp bounds every cursor
entry), excludes every returned job created at or before that timestamp
(every result is strictly later), and — within the given limit and offset —
includes every job of the selected view created strictly after it. -/
theorem C5_cursor_scoped_listing (q : BugoutJobQueue) (st : JournalState)
    (job_view : JobView) (limit offset : Nat)
    (c0 : Entry) (hc0 : c0 ∈ st.entries)
    (hc0t : c0.context_type = some q.cursor_context_type) :
    ∃ cursor, searchEntries st (cursorQuery q) 1 0 .DESCENDING = [cursor] ∧
      (∀ e ∈ st.entries, e.context_type = some q.cursor_context_type →
        e.created_at ≤ cursor.created_at) ∧
      ∃ res, list_jobs q st job_view true limit offset = .ok res ∧
        (∀ r ∈ res, cursor.created_at < r.created_at) ∧
        (offset = 0 →
          (entriesMatching st (listJobsTerms q job_view ++
            [.createdAtGt cursor.created_at])).length ≤ limit →
          ∀ e ∈ st.entries, matchesQuery e (listJobsTerms q job_view) = true →
            cursor.created_at < e.created_at → entryToJobResult e ∈ res) := by
  have hne : entriesMatching st (cursorQuery q) ≠ [] := by
    intro hnil
    have hmem : c0 ∈ entriesMatching st (cursorQuery q) :=
      List.mem_filter.mpr ⟨hc0, by simp [matchesQuery, cursorQuery, matchesTerm, hc0t]⟩
    rw [hnil] at hmem
    exact absurd hmem (List.not_mem_nil c0)
  obtain ⟨c, hcs, hcmem, hcmatch, hcmax⟩ := searchEntries_desc_one hne
  refine ⟨c, hcs, ?_, ?_⟩
  · intro e he het
    exact hcmax e he (by simp [matchesQuery, cursorQuery, matchesTerm, het])
  · refine ⟨(searchEntries st (listJobsTerms q job_view ++
        [.createdAtGt c.created_at]) limit offset .ASCENDING).map entryToJobResult,
      ?_, ?_, ?_⟩
    · simp [list_jobs, hcs, Except.map]
    · intro r hr
      obtain ⟨e2, he2, rfl⟩ := List.mem_map.mp hr
      obtain ⟨_, hmatch⟩ := mem_of_mem_searchEntries he2
      have hterm := (List.all_eq_true.mp hmatch) (.createdAtGt c.created_at)
        (by simp)
      simp only [matchesTerm, decide_eq_true_eq] at hterm
      exact hterm
    · intro hoff hlim e he hm hgt
      subst hoff
      apply List.mem_map_of_mem entryToJobResult
      apply mem_searchEntries_of_matches hlim he ?_ .ASCENDING
      rw [matchesQuery, List.all_append]
      rw [matchesQuery] at hm
      rw [hm]
      simp [matchesTerm, hgt]

/-- A cursor entry at time 5, used by the C5 witness. -/
def sampleCursorEntry : Entry :=
  ⟨"c1", "j/entries/c1", "cursor:job_cursor", "", ["cursor:job_cursor"],
    some "job_cursor", none, 5⟩

/-- An unmarked job created after the cursor, used by the C5 witness. -/
def sampleLateJob : Entry :=
  ⟨"e2", "j/entries/e2", "T2", "C2", ["job", "job:43"], some "job", some "43", 7⟩

/-- A journal holding an early job (time 1), a cursor (time 5) and a late job
(time 7). -/
def cursorState : JournalState := ⟨[sampleEntry, sampleCursorEntry, sampleLateJob]⟩

/-- C5 witness: the concrete journal with one cursor entry. -/
theorem C5_witness :
    (sampleCursorEntry ∈ cursorState.entries ∧
      sampleCursorEntry.context_type = some sampleQueue.cursor_context_type) ∧
    (∃ cursor, searchEntries cursorState (cursorQuery sampleQueue) 1 0 .DESCENDING =
        [cursor] ∧
      (∀ e ∈ cursorState.entries,
        e.context_type = some sampleQueue.cursor_context_type →
          e.created_at ≤ cursor.created_at) ∧
      ∃ res, list_jobs sampleQueue cursorState .REMAINING true 10 0 = .ok res ∧
        (∀ r ∈ res, cursor.created_at < r.created_at) ∧
        ((0 : Nat) = 0 →
          (entriesMatching cursorState (listJobsTerms sampleQueue .REMAINING ++
            [.createdAtGt cursor.created_at])).length ≤ 10 →
          ∀ e ∈ cursorState.entries,
            matchesQuery e (listJobsTerms sampleQueue .REMAINING) = true →
              cursor.created_at < e.created_at → entryToJobResult e ∈ res)) :=
  ⟨⟨by decide, by decide⟩,
    C5_cursor_scoped_listing sampleQueue cursorState .REMAINING 10 0
      sampleCursorEntry (by decide) (by decide)⟩

/-! ### Claim C4 -/

/-- C4: the job search of `list_jobs` is sent ascending with the caller's
limit and offset and with content included, and consequently — against the
modelled store — a REMAINING listing with sufficient limit returns three
unmarked jobs created at t1 < t2 < t3 in exactly that order. -/
theorem C4_ascending_fifo (q : BugoutJobQueue) (st : JournalState)
    (job_view : JobView) (use_cursor : Bool) (limit offset : Nat)
    (cursor_results : List BugoutSearchResult)
    (hq : use_cursor = false ∨ cursor_results ≠ [])
    (j1 j2 j3 : Entry)
    (h1 : j1 ∈ st.entries) (h2 : j2 ∈ st.entries) (h3 : j3 ∈ st.entries)
    (hc1 : j1.context_type = some q.context_type)
    (hc2 : j2.context_type = some q.context_type)
    (hc3 : j3.context_type = some q.context_type)
    (hs1 : q.success_tag ∉ j1.tags) (hf1 : q.failure_tag ∉ j1.tags)
    (hs2 : q.success_tag ∉ j2.tags) (hf2 : q.failure_tag ∉ j2.tags)
    (hs3 : q.success_tag ∉ j3.tags) (hf3 : q.failure_tag ∉ j3.tags)
    (ht12 : j1.created_at < j2.created_at) (ht23 : j2.created_at < j3.created_at)
    (hlim : (entriesMatching st (listJobsTerms q .REMAINING)).length ≤ limit) :
    (∃ p : SearchParams,
      list_jobs_search_params q job_view use_cursor limit offset cursor_results =
        .ok p ∧
      p.order = .ASCENDING ∧ p.limit = limit ∧ p.offset = offset ∧
      p.content = true ∧ p.filters = []) ∧
    (∃ res, list_jobs q st .REMAINING false limit 0 = .ok res ∧
      ∃ i1 i2 i3 : Nat, i1 < i2 ∧ i2 < i3 ∧
        res.get? i1 = some (entryToJobResult j1) ∧
        res.get? i2 = some (entryToJobResult j2) ∧
        res.get? i3 = some (entryToJobResult j3)) := by
  constructor
  · have hquery : ∃ s, list_jobs_query q job_view use_cursor cursor_results = .ok s := by
      cases use_cursor with
      | false => exact ⟨_, rfl⟩
      | true =>
          cases cursor_results with
          | nil => rcases hq with h | h <;> simp at h
          | cons cr rest => exact ⟨_, rfl⟩
    obtain ⟨s, hs⟩ := hquery
    refine ⟨{ q := s, filters := [], limit := limit, offset := offset,
              content := true, order := .ASCENDING }, ?_, rfl, rfl, rfl, rfl, rfl⟩
    simp [list_jobs_search_params, hs, Except.map]
  · have hm1 : matchesQuery j1 (listJobsTerms q .REMAINING) = true := by
      simp [matchesQuery, listJobsTerms, matchesTerm, hc1, hs1, hf1]
    have hm2 : matchesQuery j2 (listJobsTerms q .REMAINING) = true := by
      simp [matchesQuery, listJobsTerms, matchesTerm, hc2, hs2, hf2]
    have hm3 : matchesQuery j3 (listJobsTerms q .REMAINING) = true := by
      simp [matchesQuery, listJobsTerms, matchesTerm, hc3, hs3, hf3]
    refine ⟨(searchEntries st (listJobsTerms q .REMAINING) limit 0
        .ASCENDING).map entryToJobResult, rfl, ?_⟩
    have hsorted := searchEntries_sorted_asc st (listJobsTerms q .REMAINING) limit 0
    obtain ⟨n1, hn1⟩ := exists_get?_of_mem (mem_searchEntries_of_matches hlim h1 hm1 .ASCENDING)
    obtain ⟨n2, hn2⟩ := exists_get?_of_mem (mem_searchEntries_of_matches hlim h2 hm2 .ASCENDING)
    obtain ⟨n3, hn3⟩ := exists_get?_of_mem (mem_searchEntries_of_matches hlim h3 hm3 .ASCENDING)
    refine ⟨n1, n2, n3, sorted_index_lt hsorted hn1 hn2 ht12,
      sorted_index_lt hsorted hn2 hn3 ht23, ?_, ?_, ?_⟩
    · rw [List.get?_map, hn1]; rfl
    · rw [List.get?_map, hn2]; rfl
    · rw [List.get?_map, hn3]; rfl

/-- Three unmarked jobs at times 1, 2, 3, used by the C4 witness. -/
def fifoJob1 : Entry :=
  ⟨"a1", "j/entries/a1", "T1", "C1", ["job", "job:1"], some "job", some "1", 1⟩

/-- The second FIFO witness job. -/
def fifoJob2 : Entry :=
  ⟨"a2", "j/entries/a2", "T2", "C2", ["job", "job:2"], some "job", some "2", 2⟩

/-- The third FIFO witness job. -/
def fifoJob3 : Entry :=
  ⟨"a3", "j/entries/a3", "T3", "C3", ["job", "job:3"], some "job", some "3", 3⟩

/-- The FIFO witness journal, stored out of creation order. -/
def fifoState : JournalState := ⟨[fifoJob3, fifoJob1, fifoJob2]⟩

/-- C4 witness: the three concrete unmarked jobs listed in creation order. -/
theorem C4_witness :
    (fifoJob1 ∈ fifoState.entries ∧ fifoJob2 ∈ fifoState.entries ∧
      fifoJob3 ∈ fifoState.entries ∧
      fifoJob1.created_at < fifoJob2.created_at ∧
      fifoJob2.created_at < fifoJob3.created_at) ∧
    (∃ p : SearchParams,
      list_jobs_search_params sampleQueue .REMAINING false 10 0 [] = .ok p ∧
      p.order = .ASCENDING ∧ p.limit = 10 ∧ p.offset = 0 ∧
      p.content = true ∧ p.filters = []) ∧
    (∃ res, list_jobs sampleQueue fifoState .REMAINING false 10 0 = .ok res ∧
      ∃ i1 i2 i3 : Nat, i1 < i2 ∧ i2 < i3 ∧
        res.get? i1 = some (entryToJobResult fifoJob1) ∧
        res.get? i2 = some (entryToJobResult fifoJob2) ∧
        res.get? i3 = some (entryToJobResult fifoJob3)) :=
  ⟨⟨by decide, by decide, by decide, by decide, by decide⟩,
    C4_ascending_fifo sampleQueue fifoState .REMAINING false 10 0 []
      (Or.inl rfl) fifoJob1 fifoJob2 fifoJob3
      (by decide) (by decide) (by decide)
      (by decide) (by decide) (by decide)
      (by decide) (by decide) (by decide) (by decide) (by decide) (by decide)
      (by decide) (by decide) (by decide)⟩
